import Mathlib

/-!
# Shipping-mode controller of tracker-edge (`src/tracker_shipping.cpp`)

A shallow embedding of `TrackerShipping` and a verification of its shutdown
sequence.

* The controller object is the record `TrackerShipping`; its three members are
  the registered callback, `_checkPower` and `_pmicFire`.
* Calls into the vendor hardware layer (RGB, PMIC, interrupts, System) are
  recorded, in program order, as a list of `Effect`s.
* `shutdown` runs in the small monad `Exec`, whose results say whether control
  comes back to the caller (`Ctrl.next`) or the device is gone (`Ctrl.halt`).
* `enter` runs on a `World`: the controller, the timers it has allocated, and
  the application state the registered callback works on.
-/

namespace Tracker

/-! ## Constants of the translation unit -/

/-- Source line 19: the time one indicator colour is shown, in ms. -/
def SHIPPING_MODE_LED_CYCLE_PERIOD_MS : Nat := 250

/-- Source line 20: the total time of the indicator pattern, in ms. -/
def SHIPPING_MODE_LED_CYCLE_DURATION_MS : Nat := 5000

/-- Source line 21: the delay between `enter` and `shutdown`, in ms. -/
def SHIPPING_MODE_DEFER_DURATION_MS : Nat := 5000

/-! ## Vendor types used by the source -/

/-- Pins of the board; the source only names `PMIC_INT`. -/
inductive Pin where
  | PMIC_INT
  | other (n : Nat)
  deriving DecidableEq, Repr

/-- Edge selection of the interrupt subsystem. -/
inductive InterruptMode where
  | CHANGE
  | RISING
  | FALLING
  deriving DecidableEq, Repr

/-- Sleep modes of the system layer. -/
inductive SystemSleepMode where
  | NONE
  | STOP
  | ULTRA_LOW_POWER
  | HIBERNATE
  deriving DecidableEq, Repr

/-- The static member functions of `TrackerShipping` whose address the source
hands to a collaborator (`&TrackerShipping::pmicHandler`,
`TrackerShipping::shutdown`, `&TrackerShipping::enter_cb`). -/
inductive FnPtr where
  | pmicHandler
  | shutdown
  | enter_cb
  deriving DecidableEq, Repr

/-- The sleep configuration object built at source lines 80-82. -/
structure SystemSleepConfiguration where
  sleepMode : SystemSleepMode
  wakeupPins : List (Pin × InterruptMode)
  deriving DecidableEq, Repr

/-- A freshly constructed configuration: no mode, no wake-up source. -/
def SystemSleepConfiguration.new : SystemSleepConfiguration :=
  { sleepMode := SystemSleepMode.NONE, wakeupPins := [] }

/-- Builder `config.mode(m)`. -/
def SystemSleepConfiguration.mode (c : SystemSleepConfiguration) (m : SystemSleepMode) :
    SystemSleepConfiguration :=
  { c with sleepMode := m }

/-- Builder `config.gpio(pin, edge)`: one more wake-up pin. -/
def SystemSleepConfiguration.gpio (c : SystemSleepConfiguration) (pin : Pin)
    (edge : InterruptMode) : SystemSleepConfiguration :=
  { c with wakeupPins := c.wakeupPins ++ [(pin, edge)] }

/-- One call into the hardware layer, as seen by an observer of the device. -/
inductive Effect where
  | rgbControl (override : Bool)
  | rgbBrightness (level : Nat)
  | rgbColor (rgb : Nat)
  | delayMs (ms : Nat)
  | attachInterrupt (pin : Pin) (handler : FnPtr) (mode : InterruptMode)
  | pmicLock
  | pmicUnlock
  | disableWatchdog
  | disableBATFET
  | reset
  | sleep (config : SystemSleepConfiguration)
  deriving DecidableEq, Repr

/-! ## The controller -/

/-- A registered callback is a function pointer; its code lives in a `Code`
table. -/
abbrev CbId := Nat

/-- Members of the `TrackerShipping` singleton. `shutdown_cb = none` is the
empty (null) callback, which `if(shutdown_cb)` tests for. -/
structure TrackerShipping where
  shutdown_cb : Option CbId
  _checkPower : Bool
  _pmicFire : Bool
  deriving DecidableEq, Repr

/-- What the surroundings decide during one run of `shutdown`. -/
structure Env where
  /-- a falling edge arrives on PMIC_INT after the handler could be attached and
  before the critical section reads `_pmicFire` -/
  pmicEdge : Bool
  /-- the sleep call hands control back -/
  sleepReturns : Bool
  deriving DecidableEq, Repr

/-- State threaded through `shutdown`: the singleton and the effects so far. -/
structure Machine where
  self : TrackerShipping
  trace : List Effect
  deriving DecidableEq, Repr

/-- How a statement ends: control goes on with a value, or the device has been
reset or put to sleep for good and nothing after the statement runs. -/
inductive Ctrl (α : Type) where
  | next (a : α)
  | halt
  deriving DecidableEq, Repr

/-- Statements of `shutdown`. -/
def Exec (α : Type) : Type := Machine → Ctrl α × Machine

/-- Sequencing: the second statement runs only if the first one hands control on. -/
def Exec.bind {α β : Type} (x : Exec α) (f : α → Exec β) : Exec β := fun m =>
  match x m with
  | (Ctrl.next a, m1) => f a m1
  | (Ctrl.halt, m1) => (Ctrl.halt, m1)

/-- A statement without effect. -/
def Exec.pure {α : Type} (a : α) : Exec α := fun m => (Ctrl.next a, m)

instance : Monad Exec where
  pure := Exec.pure
  bind := Exec.bind

/-- Record one hardware call and go on. -/
def emit (e : Effect) : Exec Unit := fun m =>
  (Ctrl.next (), { m with trace := m.trace ++ [e] })

/-- Call `RGB.control(override)`. -/
def RGB.control (override : Bool) : Exec Unit := emit (Effect.rgbControl override)

/-- Call `RGB.brightness(level)`. -/
def RGB.brightness (level : Nat) : Exec Unit := emit (Effect.rgbBrightness level)

/-- Call `RGB.color(rgb)`. -/
def RGB.color (rgb : Nat) : Exec Unit := emit (Effect.rgbColor rgb)

/-- Call `HAL_Delay_Milliseconds(ms)`. -/
def HAL_Delay_Milliseconds (ms : Nat) : Exec Unit := emit (Effect.delayMs ms)

/-- Call `attachInterrupt(pin, handler, mode)`. -/
def attachInterrupt (pin : Pin) (handler : FnPtr) (mode : InterruptMode) : Exec Unit :=
  emit (Effect.attachInterrupt pin handler mode)

/-- Call `pmic.disableWatchdog()`. -/
def PMIC.disableWatchdog : Exec Unit := emit Effect.disableWatchdog

/-- Call `pmic.disableBATFET()`. -/
def PMIC.disableBATFET : Exec Unit := emit Effect.disableBATFET

/-- Scoped lock `WITH_LOCK(pmic) { body }`: the lock is released when the body
hands control on. -/
def WITH_LOCK (body : Exec Unit) : Exec Unit := do
  emit Effect.pmicLock
  body
  emit Effect.pmicUnlock

/-- Call `System.reset()`: the device restarts, control never comes back. The
source relies on it: line 70 has no `return` after the call, and the comment at
lines 67-69 says the device resets instead of going into shipping mode. -/
def System.reset : Exec Unit := fun m =>
  (Ctrl.halt, { m with trace := m.trace ++ [Effect.reset] })

/-- Call `System.sleep(config)`: whether control comes back is up to the
surroundings. -/
def System.sleep (env : Env) (config : SystemSleepConfiguration) : Exec Unit := fun m =>
  (if env.sleepReturns then Ctrl.next () else Ctrl.halt,
    { m with trace := m.trace ++ [Effect.sleep config] })

/-- Read the singleton, `TrackerShipping::instance()`. -/
def theInstance : Exec TrackerShipping := fun m => (Ctrl.next m.self, m)

/-- Source lines 32-35: the interrupt handler sets `_pmicFire`. -/
def TrackerShipping.pmicHandler (self : TrackerShipping) : TrackerShipping :=
  { self with _pmicFire := true }

/-- The one point of `shutdown` where an interrupt matters: right before
`_pmicFire` is read. If the surroundings deliver a falling edge and
`pmicHandler` has been attached to PMIC_INT for falling edges, the handler has
run by now. -/
def pmicEdgePoint (env : Env) : Exec Unit := fun m =>
  if env.pmicEdge &&
      m.trace.contains (Effect.attachInterrupt Pin.PMIC_INT FnPtr.pmicHandler InterruptMode.FALLING)
  then (Ctrl.next (), { m with self := m.self.pmicHandler })
  else (Ctrl.next (), m)

/-- Source line 49: the colour of step `i`, `((uint32_t) 0xFF) << ((i % 3) * 8)`
in 32-bit unsigned arithmetic. -/
def ledColor (i : Nat) : Nat := (0xFF <<< ((i % 3) * 8)) % 2 ^ 32

/-- Source lines 44-51: the indicator loop, entered with counter `i`. -/
def ledLoop (i : Nat) : Exec Unit :=
  if h : i < SHIPPING_MODE_LED_CYCLE_DURATION_MS / SHIPPING_MODE_LED_CYCLE_PERIOD_MS then do
    RGB.color (ledColor i)
    HAL_Delay_Milliseconds SHIPPING_MODE_LED_CYCLE_PERIOD_MS
    ledLoop (i + 1)
  else
    pure ()
termination_by SHIPPING_MODE_LED_CYCLE_DURATION_MS / SHIPPING_MODE_LED_CYCLE_PERIOD_MS - i
decreasing_by omega

/-- Source lines 37-89: `TrackerShipping::shutdown`. -/
def TrackerShipping.shutdown (env : Env) : Exec Unit := do
  -- blink RGB to signal entering shipping mode
  RGB.control true
  RGB.brightness 255
  ledLoop 0
  let shipping ← theInstance
  if shipping._checkPower then
    attachInterrupt Pin.PMIC_INT FnPtr.pmicHandler InterruptMode.FALLING
  WITH_LOCK do
    PMIC.disableWatchdog
    pmicEdgePoint env
    -- the members are read through the pointer again
    let shipping ← theInstance
    if shipping._checkPower && shipping._pmicFire then
      System.reset
    PMIC.disableBATFET
  RGB.brightness 0
  -- sleep forever waiting for power to be removed
  let config := (SystemSleepConfiguration.new.mode SystemSleepMode.HIBERNATE).gpio
    Pin.PMIC_INT InterruptMode.FALLING
  System.sleep env config
  -- not reached unless the sleep call comes back
  System.reset

/-- One run of `shutdown` from controller state `s`, starting with an empty trace. -/
def runShutdown (env : Env) (s : TrackerShipping) : Ctrl Unit × Machine :=
  TrackerShipping.shutdown env { self := s, trace := [] }

/-! ## `enter` and the registration of the callback -/

/-- A software timer object, `Timer(period, callback, one_shot)`; `active` says
that it has been started and has not fired yet. -/
structure Timer where
  period : Nat
  callback : FnPtr
  one_shot : Bool
  active : Bool
  deriving DecidableEq, Repr

/-- Constructor `new Timer(period, callback, one_shot)`: not yet started. -/
def Timer.new (period : Nat) (callback : FnPtr) (one_shot : Bool) : Timer :=
  { period := period, callback := callback, one_shot := one_shot, active := false }

/-- Method `timer->start()`. -/
def Timer.start (t : Timer) : Timer := { t with active := true }

/-- Everything `enter` can touch: the singleton, the timers allocated so far,
the application state `app` that registered callbacks read and write, and the
log `invoked` of the callbacks that have been called, oldest first. -/
structure World (App : Type) where
  self : TrackerShipping
  timers : List Timer
  app : App
  invoked : List CbId

/-- Modelled from the spec: the callback type `shipping_mode_shutdown_cb_t` is
declared in `tracker_shipping.h`, which is not part of the sources read here.
Spec §3: an optional user-supplied function invoked before committing to
shutdown, returning an integer status. A callback takes no argument; what it
does to the application is a function of the application state. -/
abbrev Code (App : Type) : Type := CbId → App → Int × App

/-- Modelled from the spec: the default argument of `enter` is declared in
`tracker_shipping.h`, which is not part of the sources read here. Spec §4.1:
`enter(checkPower: bool = false)`. -/
def TrackerShipping.enter_checkPower_default : Bool := false

/-- Status argument of a cloud command handler; an enumeration, kept as its
integer value. -/
abbrev CloudServiceStatus := Int

/-- Payload of a cloud command. -/
structure JSONValue where
  text : String
  deriving DecidableEq, Repr

/-- Source lines 25-30: `TrackerShipping::regShutdownCallback`; `cb = none` is
a null callback. -/
def TrackerShipping.regShutdownCallback {App : Type} (cb : Option CbId) (w : World App) :
    Int × World App :=
  (0, { w with self := { w.self with shutdown_cb := cb } })

/-- Source lines 93-101: the callback gate of `enter`. The first component is
`some rval` when `enter` returns early with `rval`. -/
def TrackerShipping.enterGate {App : Type} (code : Code App) (w : World App) :
    Option Int × World App :=
  match w.self.shutdown_cb with
  | some cb =>
    let r := code cb w.app
    let w1 := { w with app := r.2, invoked := w.invoked ++ [cb] }
    if r.1 ≠ 0 then (some r.1, w1) else (none, w1)
  | none => (none, w)

/-- Source lines 91-111: `TrackerShipping::enter`. -/
def TrackerShipping.enter {App : Type} (code : Code App) (checkPower : Bool) (w : World App) :
    Int × World App :=
  match TrackerShipping.enterGate code w with
  | (some rval, w1) => (rval, w1)
  | (none, w1) =>
    -- This flag will allow the shipping mode code to check power state
    let w2 := { w1 with self := { w1.self with _checkPower := checkPower } }
    let deferredShutdown := Timer.new SHIPPING_MODE_DEFER_DURATION_MS FnPtr.shutdown true
    let w3 := { w2 with timers := w2.timers ++ [deferredShutdown.start] }
    (0, w3)

/-- Source lines 113-116: `TrackerShipping::enter_cb`; `root = none` is a null
pointer, `context` an address. -/
def TrackerShipping.enter_cb {App : Type} (code : Code App) (_status : CloudServiceStatus)
    (_root : Option JSONValue) (_context : Nat) (w : World App) : Int × World App :=
  TrackerShipping.enter code TrackerShipping.enter_checkPower_default w

/-- One call from the application or from the cloud service. -/
inductive Call where
  | enter (checkPower : Bool)
  | enter_cb (status : CloudServiceStatus) (root : Option JSONValue) (context : Nat)
  deriving DecidableEq, Repr

/-- Run one call. -/
def Call.run {App : Type} (code : Code App) : Call → World App → Int × World App
  | Call.enter checkPower, w => TrackerShipping.enter code checkPower w
  | Call.enter_cb status root context, w =>
    TrackerShipping.enter_cb code status root context w

/-- Run calls one after the other, before any timer fires; the result is the
list of return values and the last world. -/
def runCalls {App : Type} (code : Code App) : List Call → World App → List Int × World App
  | [], w => ([], w)
  | c :: cs, w =>
    let r := c.run code w
    let rs := runCalls code cs r.2
    (r.1 :: rs.1, rs.2)

/-- Number of timers that have been started and have not fired. -/
def pendingTimers {App : Type} (w : World App) : Nat :=
  (w.timers.filter (fun t => t.active)).length

/-- The callbacks that were invoked on the way from `w` to `w1`. -/
def invokedSince {App : Type} (w w1 : World App) : List CbId :=
  w1.invoked.drop w.invoked.length

/-! ## Reference traces -/

/-- One indicator step: a colour, then the step delay. -/
def ledStep (i : Nat) : List Effect :=
  [Effect.rgbColor (ledColor i), Effect.delayMs SHIPPING_MODE_LED_CYCLE_PERIOD_MS]

/-- The steps `i, i+1, ..., i+n-1` of the indicator. -/
def ledSteps (i n : Nat) : List Effect := (List.range' i n).flatMap ledStep

/-- The whole indicator phase: take control of the LED, full brightness, twenty
steps. -/
def indicatorTrace : List Effect :=
  [Effect.rgbControl true, Effect.rgbBrightness 255] ++ ledSteps 0 20

/-- The three primary colours in the order blue, green, red byte. -/
def primaryColor (i : Nat) : Nat :=
  match i % 3 with
  | 0 => 0x0000FF
  | 1 => 0x00FF00
  | _ => 0xFF0000

/-- Hibernate, wake on a falling edge of PMIC_INT. -/
def hibernateConfig : SystemSleepConfiguration :=
  { sleepMode := SystemSleepMode.HIBERNATE,
    wakeupPins := [(Pin.PMIC_INT, InterruptMode.FALLING)] }

/-- The call `attachInterrupt(PMIC_INT, &TrackerShipping::pmicHandler, FALLING)`. -/
def attachPmic : Effect :=
  Effect.attachInterrupt Pin.PMIC_INT FnPtr.pmicHandler InterruptMode.FALLING

/-- An effect of the indicator loop: a colour or a delay. -/
def Effect.isLedStep : Effect → Bool
  | Effect.rgbColor _ => true
  | Effect.delayMs _ => true
  | _ => false

/-- A call that may end the run: a reset or a sleep call. -/
def Effect.isTerminal : Effect → Bool
  | Effect.reset => true
  | Effect.sleep _ => true
  | _ => false

/-- A world for examples: the application state is a counter. -/
def exampleWorld (cb : Option CbId) : World Nat :=
  { self := { shutdown_cb := cb, _checkPower := false, _pmicFire := false },
    timers := [], app := 0, invoked := [] }

/-- Callbacks for examples: callback `n` counts its calls and returns `n`. -/
def exampleCode : Code Nat := fun n a => ((n : Int), a + 1)

/-! ## General facts about the embedding -/

theorem Exec.bind_run {α β : Type} (x : Exec α) (f : α → Exec β) (m : Machine) :
    (x >>= f) m = match x m with
      | (Ctrl.next a, m1) => f a m1
      | (Ctrl.halt, m1) => (Ctrl.halt, m1) := rfl

theorem Exec.pure_run {α : Type} (a : α) (m : Machine) :
    (Pure.pure a : Exec α) m = (Ctrl.next a, m) := rfl

/-- The loop entered with counter `i`, `k` steps before the bound, hands control
on after exactly the steps `i, ..., i+k-1`. -/
theorem ledLoop_run (k : Nat) : ∀ (i : Nat) (m : Machine),
    i + k = SHIPPING_MODE_LED_CYCLE_DURATION_MS / SHIPPING_MODE_LED_CYCLE_PERIOD_MS →
    ledLoop i m = (Ctrl.next (), { m with trace := m.trace ++ ledSteps i k }) := by
  induction k with
  | zero =>
    intro i m h
    rw [ledLoop]
    simp [← h, ledSteps, Exec.pure_run]
  | succ k ih =>
    intro i m h
    rw [ledLoop]
    have hlt : i < SHIPPING_MODE_LED_CYCLE_DURATION_MS / SHIPPING_MODE_LED_CYCLE_PERIOD_MS := by
      omega
    simp only [hlt, dite_true]
    simp [Exec.bind_run, RGB.color, HAL_Delay_Milliseconds, emit, ih (i + 1) _ (by omega),
      ledSteps, List.range'_succ, ledStep]

theorem attachPmic_not_mem_ledSteps (i n : Nat) : attachPmic ∉ ledSteps i n := by
  simp [ledSteps, ledStep, attachPmic]

/-- The complete result of one run of `shutdown`. -/
theorem shutdown_run (env : Env) (s : TrackerShipping) :
    runShutdown env s =
      (Ctrl.halt,
        { self := if env.pmicEdge && s._checkPower then s.pmicHandler else s,
          trace := indicatorTrace ++ (if s._checkPower then [attachPmic] else []) ++
            [Effect.pmicLock, Effect.disableWatchdog] ++
            (if s._checkPower && (s._pmicFire || env.pmicEdge) then [Effect.reset]
             else [Effect.disableBATFET, Effect.pmicUnlock, Effect.rgbBrightness 0,
                    Effect.sleep hibernateConfig] ++
                  (if env.sleepReturns then [Effect.reset] else [])) }) := by
  obtain ⟨cb, cp, pf⟩ := s
  obtain ⟨e, r⟩ := env
  have hN : 0 + 20 =
      SHIPPING_MODE_LED_CYCLE_DURATION_MS / SHIPPING_MODE_LED_CYCLE_PERIOD_MS := by decide
  have hmem : Effect.attachInterrupt Pin.PMIC_INT FnPtr.pmicHandler InterruptMode.FALLING ∉
      ledSteps 0 20 := attachPmic_not_mem_ledSteps 0 20
  cases cp <;> cases pf <;> cases e <;> cases r <;>
    simp [runShutdown, TrackerShipping.shutdown, Exec.bind_run, Exec.pure_run, RGB.control,
      RGB.brightness, emit, ledLoop_run 20 0 _ hN, theInstance, attachInterrupt, WITH_LOCK,
      PMIC.disableWatchdog, PMIC.disableBATFET, pmicEdgePoint, System.reset, System.sleep,
      TrackerShipping.pmicHandler, indicatorTrace, hibernateConfig, attachPmic,
      SystemSleepConfiguration.new, SystemSleepConfiguration.mode,
      SystemSleepConfiguration.gpio, hmem]

/-! ## Facts about the reference traces -/

theorem indicatorTrace_no_reset : Effect.reset ∉ indicatorTrace := by
  simp [indicatorTrace, ledSteps, ledStep]

theorem indicatorTrace_no_sleep (cfg : SystemSleepConfiguration) :
    Effect.sleep cfg ∉ indicatorTrace := by
  simp [indicatorTrace, ledSteps, ledStep]

theorem indicatorTrace_no_batfet : Effect.disableBATFET ∉ indicatorTrace := by
  simp [indicatorTrace, ledSteps, ledStep]

theorem indicatorTrace_no_watchdog : Effect.disableWatchdog ∉ indicatorTrace := by
  simp [indicatorTrace, ledSteps, ledStep]

theorem indicatorTrace_no_attach (pin : Pin) (handler : FnPtr) (mode : InterruptMode) :
    Effect.attachInterrupt pin handler mode ∉ indicatorTrace := by
  simp [indicatorTrace, ledSteps, ledStep]

/-! ## The claims about `shutdown` -/

/-- C3: with `_checkPower` set and `_pmicFire` true when the critical section
reads it (it was true on entry, or the falling edge arrived after the handler
was attached), the run halts, its trace ends with the watchdog being disabled
and, right after it, the system reset; the battery FET is never disabled and no
sleep call is made. -/
theorem shutdown_power_detected_resets (env : Env) (s : TrackerShipping)
    (hcp : s._checkPower = true) (hfire : s._pmicFire = true ∨ env.pmicEdge = true) :
    (runShutdown env s).1 = Ctrl.halt ∧
    (runShutdown env s).2.trace =
      indicatorTrace ++ [attachPmic, Effect.pmicLock] ++
        [Effect.disableWatchdog, Effect.reset] ∧
    Effect.disableBATFET ∉ (runShutdown env s).2.trace ∧
    (∀ cfg, Effect.sleep cfg ∉ (runShutdown env s).2.trace) := by
  have hf : (s._pmicFire || env.pmicEdge) = true := by
    rcases hfire with h | h <;> simp [h]
  have ht : (runShutdown env s).2.trace =
      indicatorTrace ++ [attachPmic, Effect.pmicLock] ++
        [Effect.disableWatchdog, Effect.reset] := by
    rw [shutdown_run]; simp [hcp, hf]
  refine ⟨by rw [shutdown_run], ht, ?_, ?_⟩
  · rw [ht]
    have := indicatorTrace_no_batfet
    simp [attachPmic, this]
  · intro cfg
    rw [ht]
    have := indicatorTrace_no_sleep cfg
    simp [attachPmic, this]

/-- Witness of C3: the power check is requested, `_pmicFire` is clear on entry
and the edge arrives in time. -/
theorem shutdown_power_detected_resets_witness :
    ((TrackerShipping.mk none true false)._checkPower = true ∧
      ((TrackerShipping.mk none true false)._pmicFire = true ∨
        (Env.mk true false).pmicEdge = true)) ∧
    (runShutdown (Env.mk true false) (TrackerShipping.mk none true false)).1 = Ctrl.halt ∧
    (runShutdown (Env.mk true false) (TrackerShipping.mk none true false)).2.trace =
      indicatorTrace ++ [attachPmic, Effect.pmicLock] ++
        [Effect.disableWatchdog, Effect.reset] ∧
    Effect.disableBATFET ∉
      (runShutdown (Env.mk true false) (TrackerShipping.mk none true false)).2.trace ∧
    (∀ cfg, Effect.sleep cfg ∉
      (runShutdown (Env.mk true false) (TrackerShipping.mk none true false)).2.trace) :=
  ⟨⟨rfl, Or.inr rfl⟩,
    shutdown_power_detected_resets (Env.mk true false) (TrackerShipping.mk none true false)
      rfl (Or.inr rfl)⟩

/-- C4: with `_checkPower` clear, whatever `_pmicFire` is and whether or not an
edge arrives, no interrupt handler is attached; after the indicator phase the
run disables the watchdog, disables the battery FET, sets the brightness to 0
and calls sleep with hibernate mode and the single wake-up source PMIC_INT,
falling edge. No reset precedes the sleep call; a reset follows it only when
the sleep call hands control back. -/
theorem shutdown_without_power_check (env : Env) (s : TrackerShipping)
    (hcp : s._checkPower = false) :
    (runShutdown env s).2.trace =
      indicatorTrace ++
        [Effect.pmicLock, Effect.disableWatchdog, Effect.disableBATFET, Effect.pmicUnlock,
          Effect.rgbBrightness 0,
          Effect.sleep { sleepMode := SystemSleepMode.HIBERNATE,
                         wakeupPins := [(Pin.PMIC_INT, InterruptMode.FALLING)] }] ++
        (if env.sleepReturns then [Effect.reset] else []) ∧
    (∀ pin handler mode,
      Effect.attachInterrupt pin handler mode ∉ (runShutdown env s).2.trace) ∧
    Effect.reset ∉ indicatorTrace ∧
    (runShutdown env s).2.self = s := by
  have ht : (runShutdown env s).2.trace =
      indicatorTrace ++
        [Effect.pmicLock, Effect.disableWatchdog, Effect.disableBATFET, Effect.pmicUnlock,
          Effect.rgbBrightness 0,
          Effect.sleep { sleepMode := SystemSleepMode.HIBERNATE,
                         wakeupPins := [(Pin.PMIC_INT, InterruptMode.FALLING)] }] ++
        (if env.sleepReturns then [Effect.reset] else []) := by
    rw [shutdown_run]; simp [hcp, hibernateConfig]
  refine ⟨ht, ?_, indicatorTrace_no_reset, ?_⟩
  · intro pin handler mode
    rw [ht]
    have := indicatorTrace_no_attach pin handler mode
    cases env.sleepReturns <;> simp [this]
  · rw [shutdown_run]; simp [hcp]

/-- Witness of C4: no power check, `_pmicFire` set, an edge arrives and the
sleep call comes back. -/
theorem shutdown_without_power_check_witness :
    (TrackerShipping.mk (some 3) false true)._checkPower = false ∧
    (runShutdown (Env.mk true true) (TrackerShipping.mk (some 3) false true)).2.trace =
      indicatorTrace ++
        [Effect.pmicLock, Effect.disableWatchdog, Effect.disableBATFET, Effect.pmicUnlock,
          Effect.rgbBrightness 0,
          Effect.sleep { sleepMode := SystemSleepMode.HIBERNATE,
                         wakeupPins := [(Pin.PMIC_INT, InterruptMode.FALLING)] }] ++
        (if (Env.mk true true).sleepReturns then [Effect.reset] else []) ∧
    (∀ pin handler mode,
      Effect.attachInterrupt pin handler mode ∉
        (runShutdown (Env.mk true true) (TrackerShipping.mk (some 3) false true)).2.trace) ∧
    Effect.reset ∉ indicatorTrace ∧
    (runShutdown (Env.mk true true) (TrackerShipping.mk (some 3) false true)).2.self =
      TrackerShipping.mk (some 3) false true :=
  ⟨rfl,
    shutdown_without_power_check (Env.mk true true) (TrackerShipping.mk (some 3) false true)
      rfl⟩

/-- C5: with `_checkPower` set, `_pmicFire` clear on entry and no edge arriving,
the trace is the trace of a run with `_checkPower` clear (same surroundings)
with one more effect, the attachment of `pmicHandler` to PMIC_INT for falling
edges, placed right after the indicator phase and before the lock and the
watchdog call (the indicator phase holds no watchdog call); the attachment does
not occur in the other trace, both runs halt alike, and `_pmicFire` is still
clear at the end. -/
theorem shutdown_power_check_unfired (env : Env) (s s0 : TrackerShipping)
    (hcp : s._checkPower = true) (hpf : s._pmicFire = false) (hedge : env.pmicEdge = false)
    (hcp0 : s0._checkPower = false) :
    ∃ post,
      (runShutdown env s0).2.trace =
        indicatorTrace ++ Effect.pmicLock :: Effect.disableWatchdog :: post ∧
      (runShutdown env s).2.trace =
        indicatorTrace ++
          Effect.attachInterrupt Pin.PMIC_INT FnPtr.pmicHandler InterruptMode.FALLING ::
            Effect.pmicLock :: Effect.disableWatchdog :: post ∧
      Effect.attachInterrupt Pin.PMIC_INT FnPtr.pmicHandler InterruptMode.FALLING ∉
        (runShutdown env s0).2.trace ∧
      Effect.disableWatchdog ∉ indicatorTrace ∧
      (runShutdown env s).1 = (runShutdown env s0).1 ∧
      (runShutdown env s).2.self._pmicFire = false := by
  refine ⟨[Effect.disableBATFET, Effect.pmicUnlock, Effect.rgbBrightness 0,
    Effect.sleep hibernateConfig] ++ (if env.sleepReturns then [Effect.reset] else []),
    ?_, ?_, ?_, indicatorTrace_no_watchdog, ?_, ?_⟩
  · rw [shutdown_run]; simp [hcp0]
  · rw [shutdown_run]; simp [hcp, hpf, hedge, attachPmic]
  · rw [shutdown_run]
    have := indicatorTrace_no_attach Pin.PMIC_INT FnPtr.pmicHandler InterruptMode.FALLING
    cases env.sleepReturns <;> simp [hcp0, this]
  · rw [shutdown_run, shutdown_run]
  · rw [shutdown_run]; simp [hedge, hpf]

/-- Witness of C5: the same surroundings (no edge, sleep does not come back),
once with and once without the power check. -/
theorem shutdown_power_check_unfired_witness :
    ((TrackerShipping.mk none true false)._checkPower = true ∧
      (TrackerShipping.mk none true false)._pmicFire = false ∧
      (Env.mk false false).pmicEdge = false ∧
      (TrackerShipping.mk none false false)._checkPower = false) ∧
    ∃ post,
      (runShutdown (Env.mk false false) (TrackerShipping.mk none false false)).2.trace =
        indicatorTrace ++ Effect.pmicLock :: Effect.disableWatchdog :: post ∧
      (runShutdown (Env.mk false false) (TrackerShipping.mk none true false)).2.trace =
        indicatorTrace ++
          Effect.attachInterrupt Pin.PMIC_INT FnPtr.pmicHandler InterruptMode.FALLING ::
            Effect.pmicLock :: Effect.disableWatchdog :: post ∧
      Effect.attachInterrupt Pin.PMIC_INT FnPtr.pmicHandler InterruptMode.FALLING ∉
        (runShutdown (Env.mk false false) (TrackerShipping.mk none false false)).2.trace ∧
      Effect.disableWatchdog ∉ indicatorTrace ∧
      (runShutdown (Env.mk false false) (TrackerShipping.mk none true false)).1 =
        (runShutdown (Env.mk false false) (TrackerShipping.mk none false false)).1 ∧
      (runShutdown (Env.mk false false) (TrackerShipping.mk none true false)).2.self._pmicFire =
        false :=
  ⟨⟨rfl, rfl, rfl, rfl⟩,
    shutdown_power_check_unfired (Env.mk false false) (TrackerShipping.mk none true false)
      (TrackerShipping.mk none false false) rfl rfl rfl rfl⟩

theorem ledColor_eq (i : Nat) : ledColor i = 0xFF <<< (8 * (i % 3)) := by
  have h : i % 3 = 0 ∨ i % 3 = 1 ∨ i % 3 = 2 := by omega
  rcases h with h | h | h <;> simp [ledColor, h]

theorem ledSteps_eq (i n : Nat) :
    ledSteps i n =
      (List.range' i n).flatMap
        (fun j => [Effect.rgbColor (0xFF <<< (8 * (j % 3))), Effect.delayMs 250]) := by
  have h : ledStep = fun j => [Effect.rgbColor (0xFF <<< (8 * (j % 3))), Effect.delayMs 250] := by
    funext j
    simp [ledStep, ledColor_eq, SHIPPING_MODE_LED_CYCLE_PERIOD_MS]
  rw [ledSteps, h]

theorem indicatorTrace_not_terminal :
    indicatorTrace.all (fun e => !e.isTerminal) = true := by
  simp [indicatorTrace, ledSteps, ledStep, Effect.isTerminal]

/-- C6: in every run the loop bound is 5000 / 250 = 20; after taking control of
the LED the trace holds exactly the twenty steps `i = 0, ..., 19`, each a colour
`0xFF << 8 * (i mod 3)` followed by one 250 ms delay, and no colour or delay
call occurs anywhere after them. The colour of step `i` computed in 32 bits is
the unreduced shift (nothing is cut off), it is below `2 ^ 32`, and it is
0x0000FF, 0x00FF00 or 0xFF0000 as `i mod 3` is 0, 1 or 2. -/
theorem shutdown_indicator_twenty_steps (env : Env) (s : TrackerShipping) :
    SHIPPING_MODE_LED_CYCLE_DURATION_MS / SHIPPING_MODE_LED_CYCLE_PERIOD_MS = 20 ∧
    (∃ rest,
      (runShutdown env s).2.trace =
        [Effect.rgbControl true, Effect.rgbBrightness 255] ++
          (List.range 20).flatMap
            (fun i => [Effect.rgbColor (0xFF <<< (8 * (i % 3))), Effect.delayMs 250]) ++
          rest ∧
      rest.all (fun e => !e.isLedStep) = true) ∧
    ((runShutdown env s).2.trace.filter Effect.isLedStep).length = 2 * 20 ∧
    (∀ i : Nat, ledColor i = 0xFF <<< (8 * (i % 3)) ∧ 0xFF <<< (8 * (i % 3)) < 2 ^ 32 ∧
      ledColor i = primaryColor i) ∧
    (∀ k : Nat, ledColor (3 * k) = 0x0000FF ∧ ledColor (3 * k + 1) = 0x00FF00 ∧
      ledColor (3 * k + 2) = 0xFF0000) := by
  have hsteps : ledSteps 0 20 = (List.range 20).flatMap
      (fun i => [Effect.rgbColor (0xFF <<< (8 * (i % 3))), Effect.delayMs 250]) := by
    rw [ledSteps_eq, List.range_eq_range']
  have hled : ((ledSteps 0 20).filter Effect.isLedStep).length = 40 := by
    rw [hsteps]; decide
  obtain ⟨cb, cp, pf⟩ := s
  obtain ⟨e, r⟩ := env
  refine ⟨by decide, ?_, ?_, ?_, ?_⟩
  · rw [shutdown_run, indicatorTrace, hsteps]
    refine ⟨_, by rw [List.append_assoc, List.append_assoc, List.append_assoc], ?_⟩
    cases cp <;> cases pf <;> cases e <;> cases r <;>
      simp [Effect.isLedStep, attachPmic]
  · rw [shutdown_run, indicatorTrace]
    simp only [List.filter_append, List.length_append, hled]
    cases cp <;> cases pf <;> cases e <;> cases r <;>
      simp [Effect.isLedStep, attachPmic]
  · intro i
    have h : i % 3 = 0 ∨ i % 3 = 1 ∨ i % 3 = 2 := by omega
    refine ⟨ledColor_eq i, ?_, ?_⟩
    · rcases h with h | h | h <;> simp [h]
    · rcases h with h | h | h <;> simp [ledColor, primaryColor, h]
  · intro k
    refine ⟨?_, ?_, ?_⟩ <;> simp [ledColor, Nat.add_mod]

/-- C10: every run of `shutdown` halts the device: control never comes back to
the caller. The trace has one of three shapes. Either it ends with a reset and
no sleep call was made; or the sleep call does not hand control back and the
hibernate sleep call is the last effect; or the sleep call hands control back
and a reset follows it at once and ends the trace. Before these last effects
there is neither a reset nor a sleep call. -/
theorem shutdown_ends_terminal (env : Env) (s : TrackerShipping) :
    (runShutdown env s).1 = Ctrl.halt ∧
    ((runShutdown env s).2.trace.getLast? = some Effect.reset ∨
      (runShutdown env s).2.trace.getLast? = some (Effect.sleep hibernateConfig)) ∧
    ((∃ pre, (runShutdown env s).2.trace = pre ++ [Effect.reset] ∧
        pre.all (fun e => !e.isTerminal) = true) ∨
      (env.sleepReturns = false ∧
        ∃ pre, (runShutdown env s).2.trace = pre ++ [Effect.sleep hibernateConfig] ∧
          pre.all (fun e => !e.isTerminal) = true) ∨
      (env.sleepReturns = true ∧
        ∃ pre, (runShutdown env s).2.trace =
            pre ++ [Effect.sleep hibernateConfig, Effect.reset] ∧
          pre.all (fun e => !e.isTerminal) = true)) := by
  have hind := indicatorTrace_not_terminal
  obtain ⟨cb, cp, pf⟩ := s
  obtain ⟨e, r⟩ := env
  refine ⟨by rw [shutdown_run], ?_, ?_⟩
  · rw [shutdown_run]
    cases cp <;> cases pf <;> cases e <;> cases r <;> simp [List.getLast?_append]
  · rw [shutdown_run]
    by_cases hreset : (cp && (pf || e)) = true
    · left
      refine ⟨indicatorTrace ++ (if cp then [attachPmic] else []) ++
        [Effect.pmicLock, Effect.disableWatchdog], by simp [hreset], ?_⟩
      cases cp <;> (simp only [List.all_append, hind]; rfl)
    · right
      cases r
      · left
        refine ⟨rfl, indicatorTrace ++ (if cp then [attachPmic] else []) ++
          [Effect.pmicLock, Effect.disableWatchdog, Effect.disableBATFET, Effect.pmicUnlock,
            Effect.rgbBrightness 0], by simp [hreset], ?_⟩
        cases cp <;> (simp only [List.all_append, hind]; rfl)
      · right
        refine ⟨rfl, indicatorTrace ++ (if cp then [attachPmic] else []) ++
          [Effect.pmicLock, Effect.disableWatchdog, Effect.disableBATFET, Effect.pmicUnlock,
            Effect.rgbBrightness 0], by simp [hreset], ?_⟩
        cases cp <;> (simp only [List.all_append, hind]; rfl)

/-! ## The claims about `enter` and the callback -/

/-- How `enter` runs, by the three cases of its gate. -/
theorem enter_cases {App : Type} (code : Code App) (checkPower : Bool) (w : World App) :
    (w.self.shutdown_cb = none ∧
      TrackerShipping.enter code checkPower w =
        (0, { w with
              self := { w.self with _checkPower := checkPower },
              timers := w.timers ++
                [{ period := 5000, callback := FnPtr.shutdown, one_shot := true,
                   active := true }] })) ∨
    (∃ cb, w.self.shutdown_cb = some cb ∧ (code cb w.app).1 = 0 ∧
      TrackerShipping.enter code checkPower w =
        (0, { self := { w.self with _checkPower := checkPower },
              timers := w.timers ++
                [{ period := 5000, callback := FnPtr.shutdown, one_shot := true,
                   active := true }],
              app := (code cb w.app).2,
              invoked := w.invoked ++ [cb] })) ∨
    (∃ cb, w.self.shutdown_cb = some cb ∧ (code cb w.app).1 ≠ 0 ∧
      TrackerShipping.enter code checkPower w =
        ((code cb w.app).1,
          { w with app := (code cb w.app).2, invoked := w.invoked ++ [cb] })) := by
  have h : w.self.shutdown_cb = none ∨ ∃ cb, w.self.shutdown_cb = some cb := by
    cases w.self.shutdown_cb <;> simp
  rcases h with h | ⟨cb, h⟩
  · left
    simp [TrackerShipping.enter, TrackerShipping.enterGate, h, Timer.new, Timer.start,
      SHIPPING_MODE_DEFER_DURATION_MS]
  · by_cases h0 : (code cb w.app).1 = 0
    · right; left
      exact ⟨cb, h, h0, by
        simp [TrackerShipping.enter, TrackerShipping.enterGate, h, h0, Timer.new, Timer.start,
          SHIPPING_MODE_DEFER_DURATION_MS]⟩
    · right; right
      exact ⟨cb, h, h0, by
        simp [TrackerShipping.enter, TrackerShipping.enterGate, h, h0]⟩

/-- C1: when a callback is registered and returns `r ≠ 0`, `enter` returns
exactly `r` for either `checkPower`; no timer is added, and the controller
(`_checkPower`, `_pmicFire` and the registered callback) is as before. The
callback was invoked once and the application state is the one it left. -/
theorem enter_callback_abort {App : Type} (code : Code App) (checkPower : Bool)
    (w : World App) (cb : CbId) (r : Int)
    (hcb : w.self.shutdown_cb = some cb) (hr : (code cb w.app).1 = r) (hne : r ≠ 0) :
    (TrackerShipping.enter code checkPower w).1 = r ∧
    (TrackerShipping.enter code checkPower w).2.timers = w.timers ∧
    (TrackerShipping.enter code checkPower w).2.self = w.self ∧
    (TrackerShipping.enter code checkPower w).2.app = (code cb w.app).2 ∧
    invokedSince w (TrackerShipping.enter code checkPower w).2 = [cb] := by
  subst hr
  simp [TrackerShipping.enter, TrackerShipping.enterGate, hcb, hne, invokedSince]

/-- Witness of C1: callback 7 returns 7. -/
theorem enter_callback_abort_witness :
    ((exampleWorld (some 7)).self.shutdown_cb = some 7 ∧
      (exampleCode 7 (exampleWorld (some 7)).app).1 = 7 ∧ (7 : Int) ≠ 0) ∧
    (TrackerShipping.enter exampleCode true (exampleWorld (some 7))).1 = 7 ∧
    (TrackerShipping.enter exampleCode true (exampleWorld (some 7))).2.timers =
      (exampleWorld (some 7)).timers ∧
    (TrackerShipping.enter exampleCode true (exampleWorld (some 7))).2.self =
      (exampleWorld (some 7)).self ∧
    (TrackerShipping.enter exampleCode true (exampleWorld (some 7))).2.app =
      (exampleCode 7 (exampleWorld (some 7)).app).2 ∧
    invokedSince (exampleWorld (some 7))
      (TrackerShipping.enter exampleCode true (exampleWorld (some 7))).2 = [7] :=
  ⟨⟨rfl, rfl, by decide⟩,
    enter_callback_abort exampleCode true (exampleWorld (some 7)) 7 7 rfl rfl (by decide)⟩

/-- C2: when no callback is registered, or the registered one returns 0,
`enter` returns 0, `_checkPower` holds the argument, and the timers are the old
ones followed by exactly one new timer: period 5000 ms, one-shot, callback
`TrackerShipping::shutdown`, started. The registered callback and `_pmicFire`
are as before. -/
theorem enter_schedules_shutdown {App : Type} (code : Code App) (checkPower : Bool)
    (w : World App)
    (hgate : w.self.shutdown_cb = none ∨
      ∃ cb, w.self.shutdown_cb = some cb ∧ (code cb w.app).1 = 0) :
    (TrackerShipping.enter code checkPower w).1 = 0 ∧
    (TrackerShipping.enter code checkPower w).2.self._checkPower = checkPower ∧
    (TrackerShipping.enter code checkPower w).2.timers =
      w.timers ++
        [{ period := 5000, callback := FnPtr.shutdown, one_shot := true, active := true }] ∧
    SHIPPING_MODE_DEFER_DURATION_MS = 5000 ∧
    (TrackerShipping.enter code checkPower w).2.self.shutdown_cb = w.self.shutdown_cb ∧
    (TrackerShipping.enter code checkPower w).2.self._pmicFire = w.self._pmicFire := by
  rcases hgate with h | ⟨cb, h, h0⟩ <;>
    simp [TrackerShipping.enter, TrackerShipping.enterGate, h, Timer.new, Timer.start,
      SHIPPING_MODE_DEFER_DURATION_MS, *]

/-- Witness of C2: callback 0 returns 0. -/
theorem enter_schedules_shutdown_witness :
    ((exampleWorld (some 0)).self.shutdown_cb = none ∨
      ∃ cb, (exampleWorld (some 0)).self.shutdown_cb = some cb ∧
        (exampleCode cb (exampleWorld (some 0)).app).1 = 0) ∧
    (TrackerShipping.enter exampleCode true (exampleWorld (some 0))).1 = 0 ∧
    (TrackerShipping.enter exampleCode true (exampleWorld (some 0))).2.self._checkPower =
      true ∧
    (TrackerShipping.enter exampleCode true (exampleWorld (some 0))).2.timers =
      (exampleWorld (some 0)).timers ++
        [{ period := 5000, callback := FnPtr.shutdown, one_shot := true, active := true }] ∧
    SHIPPING_MODE_DEFER_DURATION_MS = 5000 ∧
    (TrackerShipping.enter exampleCode true (exampleWorld (some 0))).2.self.shutdown_cb =
      (exampleWorld (some 0)).self.shutdown_cb ∧
    (TrackerShipping.enter exampleCode true (exampleWorld (some 0))).2.self._pmicFire =
      (exampleWorld (some 0)).self._pmicFire :=
  ⟨Or.inr ⟨0, rfl, rfl⟩,
    enter_schedules_shutdown exampleCode true (exampleWorld (some 0))
      (Or.inr ⟨0, rfl, rfl⟩)⟩

/-- C7: registering `cb1` and then `cb2` gives the same world as registering
`cb2` alone, and both calls return 0. A following `enter` invokes exactly the
callbacks `cb2.toList`: `cb2` once and nothing else when `cb2` is a callback,
nothing at all when `cb2` is null; in particular a replaced `cb1` other than
`cb2` is not invoked. After registering the null callback `enter`
returns 0 and invokes nothing, as it does when no callback was ever registered. -/
theorem regShutdownCallback_last_wins {App : Type} (code : Code App) (cb1 cb2 : Option CbId)
    (checkPower : Bool) (w : World App) :
    (TrackerShipping.regShutdownCallback cb1 w).1 = 0 ∧
    (TrackerShipping.regShutdownCallback cb2 (TrackerShipping.regShutdownCallback cb1 w).2).1
      = 0 ∧
    (TrackerShipping.regShutdownCallback cb2 (TrackerShipping.regShutdownCallback cb1 w).2).2
      = (TrackerShipping.regShutdownCallback cb2 w).2 ∧
    invokedSince w
      (TrackerShipping.enter code checkPower
        (TrackerShipping.regShutdownCallback cb2
          (TrackerShipping.regShutdownCallback cb1 w).2).2).2 = cb2.toList ∧
    (∀ c, cb1 = some c → cb1 ≠ cb2 →
      c ∉ invokedSince w
        (TrackerShipping.enter code checkPower
          (TrackerShipping.regShutdownCallback cb2
            (TrackerShipping.regShutdownCallback cb1 w).2).2).2) ∧
    (TrackerShipping.regShutdownCallback cb2 w).2.self.shutdown_cb = cb2 ∧
    (TrackerShipping.enter code checkPower
        (TrackerShipping.regShutdownCallback none
          (TrackerShipping.regShutdownCallback cb1 w).2).2).1 = 0 ∧
    invokedSince w
      (TrackerShipping.enter code checkPower
        (TrackerShipping.regShutdownCallback none
          (TrackerShipping.regShutdownCallback cb1 w).2).2).2 = [] := by
  have hlog : invokedSince w
      (TrackerShipping.enter code checkPower
        (TrackerShipping.regShutdownCallback cb2
          (TrackerShipping.regShutdownCallback cb1 w).2).2).2 = cb2.toList := by
    cases cb2 with
    | none =>
      simp [TrackerShipping.enter, TrackerShipping.enterGate,
        TrackerShipping.regShutdownCallback, invokedSince]
    | some c =>
      by_cases h0 : (code c w.app).1 = 0 <;>
        simp [TrackerShipping.enter, TrackerShipping.enterGate,
          TrackerShipping.regShutdownCallback, invokedSince, h0]
  refine ⟨rfl, rfl, rfl, hlog, ?_, rfl, ?_, ?_⟩
  · intro c hc hne hmem
    rw [hlog] at hmem
    cases cb2 with
    | none => simp at hmem
    | some c2 =>
      simp at hmem
      exact hne (by rw [hc, hmem])
  · simp [TrackerShipping.enter, TrackerShipping.enterGate,
      TrackerShipping.regShutdownCallback]
  · simp [TrackerShipping.enter, TrackerShipping.enterGate,
      TrackerShipping.regShutdownCallback, invokedSince]

/-- C8: for every status, payload and context, `enter_cb` gives the same
return value and the same world (controller, timers, application state) as
`enter(false)`; `_checkPower` is false when it returns 0 and untouched
otherwise; any other status, payload and context give the same result. -/
theorem enter_cb_is_enter_false {App : Type} (code : Code App) (status : CloudServiceStatus)
    (root : Option JSONValue) (context : Nat) (w : World App) :
    TrackerShipping.enter_cb code status root context w =
      TrackerShipping.enter code false w ∧
    (TrackerShipping.enter_cb code status root context w).2.self._checkPower =
      (if (TrackerShipping.enter_cb code status root context w).1 = 0 then false
       else w.self._checkPower) ∧
    (∀ (status1 : CloudServiceStatus) (root1 : Option JSONValue) (context1 : Nat),
      TrackerShipping.enter_cb code status1 root1 context1 w =
        TrackerShipping.enter_cb code status root context w) := by
  refine ⟨rfl, ?_, fun _ _ _ => rfl⟩
  have hdef : TrackerShipping.enter_cb code status root context w =
      TrackerShipping.enter code false w := rfl
  rw [hdef]
  rcases enter_cases code false w with ⟨_, h⟩ | ⟨cb, _, _, h⟩ | ⟨cb, _, hne, h⟩ <;>
    simp [h, *]

/-- Return values and pending timers of a run of calls: every call that returns
0 has started one more timer, every other call none. -/
theorem runCalls_pending {App : Type} (code : Code App) (cs : List Call) :
    ∀ w : World App,
      pendingTimers (runCalls code cs w).2 =
        pendingTimers w + ((runCalls code cs w).1.filter (fun r => r = 0)).length := by
  induction cs with
  | nil => intro w; simp [runCalls]
  | cons c cs ih =>
    intro w
    have henter : ∀ cp, pendingTimers (TrackerShipping.enter code cp w).2 =
        pendingTimers w + (if (TrackerShipping.enter code cp w).1 = 0 then 1 else 0) := by
      intro cp
      rcases enter_cases code cp w with ⟨_, h⟩ | ⟨cb, _, _, h⟩ | ⟨cb, _, hne, h⟩ <;>
        simp [h, pendingTimers, *]
    have hstep : pendingTimers (c.run code w).2 =
        pendingTimers w + (if (c.run code w).1 = 0 then 1 else 0) := by
      cases c with
      | enter cp => exact henter cp
      | enter_cb st root ctx => exact henter false
    simp only [runCalls, ih, hstep, List.filter_cons]
    by_cases h0 : (c.run code w).1 = 0 <;> simp [h0]; omega

/-- C9, as the code behaves: `enter` has no guard against a second call, so
after any sequence of calls to `enter` and `enter_cb` the number of timers
started and not fired is the number before plus the number of calls that
returned 0. -/
theorem pending_timers_count_successful_calls {App : Type} (code : Code App)
    (cs : List Call) (w : World App) :
    pendingTimers (runCalls code cs w).2 =
      pendingTimers w + ((runCalls code cs w).1.filter (fun r => r = 0)).length ∧
    (pendingTimers (runCalls code cs w).2 ≤ 1 ↔
      pendingTimers w + ((runCalls code cs w).1.filter (fun r => r = 0)).length ≤ 1) := by
  have h := runCalls_pending code cs w
  exact ⟨h, by rw [h]⟩

/-- C9 fails as stated: with no callback registered and no timer pending, two
calls of `enter` in a row leave two timers started and not fired. -/
theorem two_enters_two_pending_timers :
    pendingTimers (exampleWorld none) = 0 ∧
    (runCalls exampleCode [Call.enter false, Call.enter false] (exampleWorld none)).1 =
      [0, 0] ∧
    pendingTimers
      (runCalls exampleCode [Call.enter false, Call.enter false] (exampleWorld none)).2 = 2 ∧
    ¬ pendingTimers
      (runCalls exampleCode [Call.enter false, Call.enter false] (exampleWorld none)).2 ≤ 1 := by
  refine ⟨rfl, rfl, rfl, by decide⟩

end Tracker
